import Mathlib

/-!
Shallow embedding of `src/rs485_relay_board/base.py` (class `RelayBoard`).

The board object is reduced to its only piece of controller state, the
channel count `channels : Int` (Python integers are unbounded, so channels,
channel numbers, seconds and lengths are modelled as `Int`).  The Modbus
transport (`minimalmodbus.Instrument`) is out of scope for the repository;
each operation is modelled as a pure function that either fails with the
`ValueError` the Python code raises, or returns the exact list of transport
calls it issues (in order), together with its return value.  A read
operation additionally takes a `MockTransport`, a deterministic model of the
values the instrument would return.  Raising before the transport call in
Python corresponds to returning `.error e` with no call list, hence
"zero transport calls".
-/

namespace RS485

/-- A single call delegated to the Modbus transport collaborator
(`self.board` in the source).  `writeRegister a v` models
`board.write_register(a, value=v, functioncode=6)`; `readRegister a` models
`board.read_register(a)`; `readRegisters a n` models
`board.read_registers(a, number_of_registers=n)`. -/
inductive TransportCall where
  | writeRegister (addr : Int) (value : Int)
  | readRegister (addr : Int)
  | readRegisters (addr : Int) (count : Int)
deriving DecidableEq, Repr

/-- The `ValueError`s raised by `RelayBoard`, by message:
`invalidChannel` = "Invalid number of channel.",
`invalidDelay` = "Delay can be only in range 0-255 seconds",
`invalidRange` = "Invalid length.". -/
inductive RelayError where
  | invalidChannel
  | invalidDelay
  | invalidRange
deriving DecidableEq, Repr

/-- Deterministic model of the values the instrument returns: `readReg a`
is the register value `board.read_register(a)` yields, `readRegs a n` the
list `board.read_registers(a, number_of_registers=n)` yields.  Register
values are unsigned 16-bit integers, modelled as `Nat`. -/
structure MockTransport where
  readReg : Int → Nat
  readRegs : Int → Int → List Nat

/-- `RelayBoard.check_channel_number`: raises unless
`1 <= channel <= self.channels`. -/
def check_channel_number (channels channel : Int) : Except RelayError Unit :=
  if ¬ (1 ≤ channel ∧ channel ≤ channels) then .error .invalidChannel
  else .ok ()

/-- `RelayBoard.check_seconds`: raises unless `0 <= seconds <= 255`. -/
def check_seconds (seconds : Int) : Except RelayError Unit :=
  if ¬ (0 ≤ seconds ∧ seconds ≤ 255) then .error .invalidDelay
  else .ok ()

/-- `RelayBoard.open_relay`: validate the channel, then
`write_register(channel, value=0x0100, functioncode=6)`. -/
def open_relay (channels channel : Int) : Except RelayError (List TransportCall) :=
  match check_channel_number channels channel with
  | .error e => .error e
  | .ok () => .ok [.writeRegister channel 0x0100]

/-- `RelayBoard.close_relay`: validate the channel, then
`write_register(channel, value=0x0200, functioncode=6)`. -/
def close_relay (channels channel : Int) : Except RelayError (List TransportCall) :=
  match check_channel_number channels channel with
  | .error e => .error e
  | .ok () => .ok [.writeRegister channel 0x0200]

/-- `RelayBoard.set_relay`: dispatch on `state` to `open_relay` /
`close_relay`. -/
def set_relay (channels channel : Int) (state : Bool) : Except RelayError (List TransportCall) :=
  if state then open_relay channels channel
  else close_relay channels channel

/-- `RelayBoard.toggle`: validate the channel, then
`write_register(channel, value=0x0300, functioncode=6)`. -/
def toggle (channels channel : Int) : Except RelayError (List TransportCall) :=
  match check_channel_number channels channel with
  | .error e => .error e
  | .ok () => .ok [.writeRegister channel 0x0300]

/-- `RelayBoard.latch`: validate the channel, then
`write_register(channel, value=0x0400, functioncode=6)`. -/
def latch (channels channel : Int) : Except RelayError (List TransportCall) :=
  match check_channel_number channels channel with
  | .error e => .error e
  | .ok () => .ok [.writeRegister channel 0x0400]

/-- `RelayBoard.momentary`: validate the channel, then
`write_register(channel, value=0x0500, functioncode=6)`. -/
def momentary (channels channel : Int) : Except RelayError (List TransportCall) :=
  match check_channel_number channels channel with
  | .error e => .error e
  | .ok () => .ok [.writeRegister channel 0x0500]

/-- `RelayBoard.delay`: validate the channel, then the seconds, then
`write_register(channel, value=(0x06 << 8) + seconds, functioncode=6)`
(`0x06 << 8` written as `0x06 * 2 ^ 8`). -/
def delay (channels channel seconds : Int) : Except RelayError (List TransportCall) :=
  match check_channel_number channels channel with
  | .error e => .error e
  | .ok () =>
    match check_seconds seconds with
    | .error e => .error e
    | .ok () => .ok [.writeRegister channel (0x06 * 2 ^ 8 + seconds)]

/-- `RelayBoard.open_all`: unconditionally
`write_register(0, value=0x0700, functioncode=6)` (no validation). -/
def open_all (_channels : Int) : List TransportCall :=
  [.writeRegister 0 0x0700]

/-- `RelayBoard.close_all`: unconditionally
`write_register(0, value=0x0800, functioncode=6)` (no validation). -/
def close_all (_channels : Int) : List TransportCall :=
  [.writeRegister 0 0x0800]

/-- `RelayBoard.read_relay`: validate the channel, then return
`1 == self.board.read_register(channel)`. -/
def read_relay (t : MockTransport) (channels channel : Int) :
    Except RelayError (List TransportCall × Bool) :=
  match check_channel_number channels channel with
  | .error e => .error e
  | .ok () => .ok ([.readRegister channel], 1 == t.readReg channel)

/-- `RelayBoard.read_relays`: validate `start_channel`, raise
"Invalid length." if `self.channels - start_channel + 1 < length`, else
return `tuple(1 == x for x in read_registers(start_channel, length))`. -/
def read_relays (t : MockTransport) (channels start_channel length : Int) :
    Except RelayError (List TransportCall × List Bool) :=
  match check_channel_number channels start_channel with
  | .error e => .error e
  | .ok () =>
    if channels - start_channel + 1 < length then .error .invalidRange
    else .ok ([.readRegisters start_channel length],
      (t.readRegs start_channel length).map (fun x => 1 == x))

/-- `RelayBoard.read_all_relays`: `read_relays(1, self.channels)`. -/
def read_all_relays (t : MockTransport) (channels : Int) :
    Except RelayError (List TransportCall × List Bool) :=
  read_relays t channels 1 channels

/-- A concrete mock transport whose registers all read as `0`, answering a
multi-register read of `n` registers with exactly `n.toNat` zeros. -/
def tZero : MockTransport where
  readReg := fun _ => 0
  readRegs := fun _ n => List.replicate n.toNat 0

/-- A concrete mock transport whose registers all read as `1`. -/
def tOne : MockTransport where
  readReg := fun _ => 1
  readRegs := fun _ n => List.replicate n.toNat 1

/-- C1: for every channel outside `[1, channels]`, every per-channel
operation (`open_relay`, `close_relay`, `set_relay`, `toggle`, `latch`,
`momentary`, `delay`, `read_relay`, and `read_relays` on its
`start_channel`) fails with the "Invalid number of channel." error, issuing
zero transport calls (the raise happens before any call is delegated). -/
theorem invalid_channel_rejects_every_op (channels channel : Int)
    (h : ¬ (1 ≤ channel ∧ channel ≤ channels)) :
    open_relay channels channel = .error .invalidChannel ∧
    close_relay channels channel = .error .invalidChannel ∧
    (∀ state : Bool, set_relay channels channel state = .error .invalidChannel) ∧
    toggle channels channel = .error .invalidChannel ∧
    latch channels channel = .error .invalidChannel ∧
    momentary channels channel = .error .invalidChannel ∧
    (∀ seconds : Int, delay channels channel seconds = .error .invalidChannel) ∧
    (∀ t : MockTransport, read_relay t channels channel = .error .invalidChannel) ∧
    (∀ (t : MockTransport) (length : Int),
      read_relays t channels channel length = .error .invalidChannel) := by
  refine ⟨?_, ?_, ?_, ?_, ?_, ?_, ?_, ?_, ?_⟩ <;>
    simp [open_relay, close_relay, set_relay, toggle, latch, momentary,
      delay, read_relay, read_relays, check_channel_number, h]

/-- Witness for C1: on a 16-channel board, channel 0 is rejected by every
per-channel operation. -/
theorem invalid_channel_rejects_every_op_witness :
    open_relay 16 0 = .error .invalidChannel ∧
    close_relay 16 0 = .error .invalidChannel ∧
    (∀ state : Bool, set_relay 16 0 state = .error .invalidChannel) ∧
    toggle 16 0 = .error .invalidChannel ∧
    latch 16 0 = .error .invalidChannel ∧
    momentary 16 0 = .error .invalidChannel ∧
    (∀ seconds : Int, delay 16 0 seconds = .error .invalidChannel) ∧
    (∀ t : MockTransport, read_relay t 16 0 = .error .invalidChannel) ∧
    (∀ (t : MockTransport) (length : Int),
      read_relays t 16 0 length = .error .invalidChannel) :=
  invalid_channel_rejects_every_op 16 0 (by decide)

set_option maxRecDepth 4096 in
/-- Bits 8..11 and bits 0..7 are disjoint, so the spec's
`(0x06 << 8) | seconds` agrees with the source's `(0x06 << 8) + seconds`
for every low byte `s < 256` (enumerated). -/
theorem lor_low_byte_eq_add_fin :
    ∀ s : Fin 256, (0x0600 ||| (s : Nat)) = 0x0600 + (s : Nat) := by decide

/-- Bits 8..11 and bits 0..7 are disjoint, so the spec's
`(0x06 << 8) | seconds` agrees with the source's `(0x06 << 8) + seconds`
for every low byte `s < 256`. -/
theorem lor_low_byte_eq_add (s : Nat) (hs : s < 256) :
    0x0600 ||| s = 0x0600 + s :=
  lor_low_byte_eq_add_fin ⟨s, hs⟩

/-- C2: for a channel inside `[1, channels]`, `open_relay` issues exactly
one `write_register(channel, 0x0100)`, `close_relay` exactly one
`write_register(channel, 0x0200)`, and for seconds in `[0, 255]`, `delay`
exactly one `write_register(channel, (0x06 << 8) + seconds)`, whose value
also equals the spec's `(0x06 << 8) | seconds` since the low byte is
disjoint from the high byte. -/
theorem open_close_delay_encoding (channels channel seconds : Int)
    (hc : 1 ≤ channel ∧ channel ≤ channels)
    (hs : 0 ≤ seconds ∧ seconds ≤ 255) :
    open_relay channels channel = .ok [.writeRegister channel 0x0100] ∧
    close_relay channels channel = .ok [.writeRegister channel 0x0200] ∧
    delay channels channel seconds =
      .ok [.writeRegister channel (0x06 * 2 ^ 8 + seconds)] ∧
    (0x06 * 2 ^ 8 + seconds).toNat = 0x0600 ||| seconds.toNat := by
  obtain ⟨hs0, hs1⟩ := hs
  refine ⟨?_, ?_, ?_, ?_⟩
  · simp [open_relay, check_channel_number, hc]
  · simp [close_relay, check_channel_number, hc]
  · simp [delay, check_channel_number, check_seconds, hc, hs0, hs1]
  · rw [lor_low_byte_eq_add seconds.toNat (by omega)]
    omega

/-- Witness for C2: channel 5 and 30 seconds on a 16-channel board. -/
theorem open_close_delay_encoding_witness :
    open_relay 16 5 = .ok [.writeRegister 5 0x0100] ∧
    close_relay 16 5 = .ok [.writeRegister 5 0x0200] ∧
    delay 16 5 30 = .ok [.writeRegister 5 (0x06 * 2 ^ 8 + 30)] ∧
    ((0x06 : Int) * 2 ^ 8 + 30).toNat = 0x0600 ||| (30 : Int).toNat :=
  open_close_delay_encoding 16 5 30 (by decide) (by decide)

/-- C5: for a channel inside `[1, channels]` and seconds outside
`[0, 255]`, `delay` fails with the "Delay can be only in range 0-255
seconds" error and issues zero transport calls (the raise happens before
`write_register`). -/
theorem delay_invalid_seconds (channels channel seconds : Int)
    (hc : 1 ≤ channel ∧ channel ≤ channels)
    (hs : ¬ (0 ≤ seconds ∧ seconds ≤ 255)) :
    delay channels channel seconds = .error .invalidDelay := by
  simp [delay, check_channel_number, check_seconds, hc, hs]

/-- Witness for C5: `delay(5, 256)` on a 16-channel board is rejected. -/
theorem delay_invalid_seconds_witness :
    delay 16 5 256 = .error .invalidDelay :=
  delay_invalid_seconds 16 5 256 (by decide) (by decide)

/-- C6: `open_all` issues exactly one `write_register(0, 0x0700)` and
`close_all` exactly one `write_register(0, 0x0800)`, to the broadcast
address 0, for every channel count. -/
theorem open_all_close_all_encoding (channels : Int) :
    open_all channels = [.writeRegister 0 0x0700] ∧
    close_all channels = [.writeRegister 0 0x0800] :=
  ⟨rfl, rfl⟩

/-- C7: for a channel inside `[1, channels]`, `toggle` issues exactly one
`write_register(channel, 0x0300)`, `latch` exactly one
`write_register(channel, 0x0400)`, and `momentary` exactly one
`write_register(channel, 0x0500)` — the low byte is 0 in each case. -/
theorem toggle_latch_momentary_encoding (channels channel : Int)
    (hc : 1 ≤ channel ∧ channel ≤ channels) :
    toggle channels channel = .ok [.writeRegister channel 0x0300] ∧
    latch channels channel = .ok [.writeRegister channel 0x0400] ∧
    momentary channels channel = .ok [.writeRegister channel 0x0500] := by
  refine ⟨?_, ?_, ?_⟩ <;>
    simp [toggle, latch, momentary, check_channel_number, hc]

/-- Witness for C7: channel 7 on a 16-channel board. -/
theorem toggle_latch_momentary_encoding_witness :
    toggle 16 7 = .ok [.writeRegister 7 0x0300] ∧
    latch 16 7 = .ok [.writeRegister 7 0x0400] ∧
    momentary 16 7 = .ok [.writeRegister 7 0x0500] :=
  toggle_latch_momentary_encoding 16 7 (by decide)

/-- C8: for every channel count and channel, `set_relay(channel, true)` is
the very same computation as `open_relay(channel)` (same validation
outcome, same transport call list) and `set_relay(channel, false)` the
same as `close_relay(channel)`. -/
theorem set_relay_dispatch (channels channel : Int) :
    set_relay channels channel true = open_relay channels channel ∧
    set_relay channels channel false = close_relay channels channel :=
  ⟨rfl, rfl⟩

/-- C4: for a channel inside `[1, channels]`, `read_relay` issues exactly
one single-register read at address `channel` and returns
`1 == read_register(channel)`: `true` iff the transport returned exactly
`1`, `false` for every other value. -/
theorem read_relay_true_iff_one (t : MockTransport) (channels channel : Int)
    (hc : 1 ≤ channel ∧ channel ≤ channels) :
    read_relay t channels channel =
      .ok ([.readRegister channel], 1 == t.readReg channel) ∧
    ((1 == t.readReg channel) = true ↔ t.readReg channel = 1) := by
  constructor
  · simp [read_relay, check_channel_number, hc]
  · rw [beq_iff_eq]
    exact eq_comm

/-- Witness for C4: channel 3 on a 16-channel board over the all-zero
transport (the register reads `0`, so the relay reads as closed). -/
theorem read_relay_true_iff_one_witness :
    read_relay tZero 16 3 =
      .ok ([.readRegister 3], 1 == tZero.readReg 3) ∧
    ((1 == tZero.readReg 3) = true ↔ tZero.readReg 3 = 1) :=
  read_relay_true_iff_one tZero 16 3 (by decide)

/-- C3: for a valid `start_channel`, `read_relays` fails with the
"Invalid length." error (issuing zero transport calls) when
`channels - start_channel + 1 < length`; otherwise it issues exactly one
multi-register read of `length` registers at `start_channel` and returns
exactly `length` booleans in register order, the i-th being `true` iff the
i-th returned register value equals exactly `1`. -/
theorem read_relays_range_and_result (t : MockTransport)
    (channels start_channel length : Int)
    (hc : 1 ≤ start_channel ∧ start_channel ≤ channels)
    (hlen : (t.readRegs start_channel length).length = length.toNat) :
    (channels - start_channel + 1 < length →
      read_relays t channels start_channel length = .error .invalidRange) ∧
    (¬ channels - start_channel + 1 < length →
      ∃ bs, read_relays t channels start_channel length =
          .ok ([.readRegisters start_channel length], bs) ∧
        bs.length = length.toNat ∧
        ∀ i, i < length.toNat →
          ∃ (hb : i < bs.length)
            (hr : i < (t.readRegs start_channel length).length),
            bs.get ⟨i, hb⟩ =
              (1 == (t.readRegs start_channel length).get ⟨i, hr⟩)) := by
  constructor
  · intro h
    simp [read_relays, check_channel_number, hc, h]
  · intro h
    refine ⟨(t.readRegs start_channel length).map (fun x => 1 == x), ?_, ?_, ?_⟩
    · simp [read_relays, check_channel_number, hc, h]
    · simpa using hlen
    · intro i hi
      refine ⟨by simpa using hlen ▸ hi, hlen ▸ hi, ?_⟩
      simp [List.get_eq_getElem, List.getElem_map]

/-- Witness for C3: `start_channel = 1`, `length = 16` on a 16-channel
board over the all-ones transport, which answers with exactly 16
registers. -/
theorem read_relays_range_and_result_witness :
    ((16 : Int) - 1 + 1 < 16 →
      read_relays tOne 16 1 16 = .error .invalidRange) ∧
    (¬ (16 : Int) - 1 + 1 < 16 →
      ∃ bs, read_relays tOne 16 1 16 =
          .ok ([.readRegisters 1 16], bs) ∧
        bs.length = (16 : Int).toNat ∧
        ∀ i, i < (16 : Int).toNat →
          ∃ (hb : i < bs.length) (hr : i < (tOne.readRegs 1 16).length),
            bs.get ⟨i, hb⟩ = (1 == (tOne.readRegs 1 16).get ⟨i, hr⟩)) :=
  read_relays_range_and_result tOne 16 1 16 (by decide) (by simp [tOne])

/-- C9: `read_all_relays` is the very same computation as
`read_relays(1, channels)` — same validation outcome, same single read
transaction, same boolean sequence. -/
theorem read_all_relays_eq_read_relays (t : MockTransport) (channels : Int) :
    read_all_relays t channels = read_relays t channels 1 channels :=
  rfl

/-- C10: `read_relays` has no lower-bound check on `length`: for a valid
`start_channel` and any `length ≤ channels - start_channel + 1`, including
zero and negative values, no validation error is raised and the
multi-register read of `length` registers at `start_channel` is still
issued. -/
theorem read_relays_no_lower_bound (t : MockTransport)
    (channels start_channel length : Int)
    (hc : 1 ≤ start_channel ∧ start_channel ≤ channels)
    (hl : length ≤ channels - start_channel + 1) :
    read_relays t channels start_channel length =
      .ok ([.readRegisters start_channel length],
        (t.readRegs start_channel length).map (fun x => 1 == x)) := by
  have hnl : ¬ channels - start_channel + 1 < length := by omega
  simp [read_relays, check_channel_number, hc, hnl]

/-- Witness for C10: on a 16-channel board, `length = -3` and `length = 0`
both pass validation and still issue the read transaction. -/
theorem read_relays_no_lower_bound_witness :
    read_relays tZero 16 1 (-3) =
      .ok ([.readRegisters 1 (-3)],
        (tZero.readRegs 1 (-3)).map (fun x => 1 == x)) ∧
    read_relays tZero 16 1 0 =
      .ok ([.readRegisters 1 0],
        (tZero.readRegs 1 0).map (fun x => 1 == x)) :=
  ⟨read_relays_no_lower_bound tZero 16 1 (-3) (by decide) (by decide),
   read_relays_no_lower_bound tZero 16 1 0 (by decide) (by decide)⟩

end RS485
